import Mathlib

/-!
Verification of SimpleJavaRunner: the class-name resolver
(`extractMainClass` in src/JavaRunner.tsx and src/script.js) and the run
orchestrator (`runCode` in both files), shallowly embedded in Lean.

The resolver is a pair of JavaScript regex searches:
  code.match(/package\s+([^;]+);/)      -- first package capture
  code.match(/public\s+class\s+(\w+)/)  -- first public-class capture
Both patterns are simple enough that their JS (leftmost match, greedy with
backtracking) semantics can be realized by direct recursion:
  - a greedy quantifier followed by a literal whose first character the
    quantifier's class cannot match never benefits from backtracking, so
    `\s+` before `class` and the final `(\w+)` are plain maximal runs;
  - in `\s+([^;]+);` the two classes overlap on whitespace, so `\s+` is
    tried longest-first (`pkgTail` walks the run lengths downward), and for
    each run length the greedy `[^;]+;` admits no further backtracking,
    because giving characters back puts the `;` check on a non-`;` char.
-/

/-- JavaScript `\s` character class (which is also the character set removed
by `String.prototype.trim`): ASCII whitespace, NBSP, the Unicode space
separators, line separators and the BOM. -/
def jsWhitespace (c : Char) : Bool :=
  c == ' ' || c == '\t' || c == '\n' || c == '\u000B' || c == '\u000C' ||
  c == '\r' || c == '\u00A0' || c == '\u1680' ||
  ('\u2000' ≤ c && c ≤ '\u200A') ||
  c == '\u2028' || c == '\u2029' || c == '\u202F' || c == '\u205F' ||
  c == '\u3000' || c == '\uFEFF'

/-- JavaScript `\w` character class: ASCII letters, digits and underscore. -/
def wordChar (c : Char) : Bool :=
  ('a' ≤ c && c ≤ 'z') || ('A' ≤ c && c ≤ 'Z') || ('0' ≤ c && c ≤ '9') || c == '_'

/-- Match a literal string at the head of the input, returning the rest. -/
def dropLit : List Char → List Char → Option (List Char)
  | [], l => some l
  | c :: cs, d :: ds => if c = d then dropLit cs ds else none
  | _ :: _, [] => none

/-- Match `\s+` greedily at the head of the input (nonempty maximal run of
JS whitespace), returning the rest. -/
def spacesPlus : List Char → Option (List Char)
  | [] => none
  | c :: rest =>
    if jsWhitespace c then some (rest.dropWhile jsWhitespace) else none

/-- Match `([^;]+);` greedily at the head of the input, returning the
capture. The greedy `[^;]+` run admits no backtracking: giving characters
back would place the `;` check on a character of the run, which is not `;`. -/
def semiCapture (l : List Char) : Option (List Char) :=
  let cap := l.takeWhile (fun c => c != ';')
  if cap = [] then none
  else
    match l.drop cap.length with
    | [] => none
    | c :: _ => if c = ';' then some cap else none

/-- Backtracking search for `\s+([^;]+);` given the length of the maximal
whitespace run at the head: try consuming `n` whitespace characters for
`\s+` (the greedy choice first), then `n - 1`, ... down to `1`. -/
def pkgTail : Nat → List Char → Option (List Char)
  | 0, _ => none
  | Nat.succ n, l =>
    match semiCapture (l.drop (n + 1)) with
    | some cap => some cap
    | none => pkgTail n l

/-- Match `package\s+([^;]+);` at the head of the input, returning the
capture group. -/
def matchPackageAt (l : List Char) : Option (List Char) :=
  match dropLit ("package".toList) l with
  | none => none
  | some r1 => pkgTail ((r1.takeWhile jsWhitespace).length) r1

/-- Match `public\s+class\s+(\w+)` at the head of the input, returning the
capture group. -/
def matchClassAt (l : List Char) : Option (List Char) :=
  match dropLit ("public".toList) l with
  | none => none
  | some r1 =>
    match spacesPlus r1 with
    | none => none
    | some r2 =>
      match dropLit ("class".toList) r2 with
      | none => none
      | some r3 =>
        match spacesPlus r3 with
        | none => none
        | some r4 =>
          let cap := r4.takeWhile wordChar
          if cap = [] then none else some cap

/-- Leftmost-match search: JavaScript `String.prototype.match` tries the
pattern at position 0, 1, ... and returns the first success. -/
def scanMatch (f : List Char → Option (List Char)) : List Char → Option (List Char)
  | [] => none
  | c :: rest =>
    match f (c :: rest) with
    | some cap => some cap
    | none => scanMatch f rest

/-- JavaScript `String.prototype.trim`: strip leading and trailing
whitespace (same character set as `\s`). -/
def jsTrim (l : List Char) : List Char :=
  ((l.dropWhile jsWhitespace).reverse.dropWhile jsWhitespace).reverse

namespace JavaRunner

/-- `extractMainClass` from src/JavaRunner.tsx lines 113-129. -/
def extractMainClass (code : String) : String :=
  match scanMatch matchClassAt code.toList with
  | none => "Main"
  | some cls =>
    match scanMatch matchPackageAt code.toList with
    | some pkg => (jsTrim pkg).asString ++ "." ++ cls.asString
    | none => cls.asString

end JavaRunner

namespace SimpleJavaRunner

/-- `extractMainClass` from src/script.js lines 149-166. -/
def extractMainClass (code : String) : String :=
  match scanMatch matchClassAt code.toList with
  | none => "Main"
  | some cls =>
    match scanMatch matchPackageAt code.toList with
    | some pkg => (jsTrim pkg).asString ++ "." ++ cls.asString
    | none => cls.asString

end SimpleJavaRunner

/-- `DEFAULT_JAVA_CODE` from src/JavaRunner.tsx lines 15-29 (identical to
`getDefaultJavaCode` in src/script.js lines 17-33). -/
def DEFAULT_JAVA_CODE : String :=
  "public class Main \x7b\n    public static void main(String[] args) \x7b\n        System.out.println(\"Hello, World!\");\n        \n        // Try some basic Java features\n        int number = 42;\n        String message = \"The answer is: \" + number;\n        System.out.println(message);\n        \n        // Simple loop\n        for (int i = 1; i <= 5; i++) \x7b\n            System.out.println(\"Count: \" + i);\n        \x7d\n    \x7d\n\x7d"



/-!
The run orchestrator. `runCode` in src/JavaRunner.tsx lines 146-186 and in
src/script.js lines 104-147 is an async method driving the external CheerpJ
engine. The embedding makes the ambient environment explicit (`RunEnv`: does
the engine script exist, does a step throw, what integer the compile call
returns), threads the component state explicitly, and records the calls
issued to the engine as a trace. A thrown error is modelled by the `Option
String` fields of `RunEnv` holding the error's user-visible text (for an
`Error` object, its `message`; the tsx template `Error: ${error}`
stringification and the js `error.message` extraction both contain that
text). The trailing `setTimeout(..., 1000)` of each `finally` block is
modelled by the `timerArmed` flag plus a separate `tsxTimeout` / `jsTimeout`
step for the timer callback firing.
-/

/-- A call issued to the external CheerpJ engine: `cheerpjAddStringFile`
or `cheerpjRunMain (entry, classpath, ...args)`. -/
inductive ExtCall where
  | addStringFile : String → String → ExtCall
  | runMain : String → String → List String → ExtCall
deriving DecidableEq

/-- Environment of one run: whether the CheerpJ globals exist (`loaded`),
the error text of each step when that step throws, and the integer result
of the compile call when it returns. -/
structure RunEnv where
  loaded : Bool
  fileWriteThrows : Option String
  compileThrows : Option String
  compileResult : Int
  runThrows : Option String
deriving DecidableEq

/-- Component state of the React implementation (src/JavaRunner.tsx):
the `cheerpjReady` and `isRunning` useState flags, the console and
graphical-output region contents, and the current editor text. -/
structure ReactState where
  cheerpjReady : Bool
  isRunning : Bool
  consoleText : String
  outputText : String
  currentCode : String
deriving DecidableEq

/-- Instance state of the vanilla implementation (src/script.js class
`SimpleJavaRunner`): the `isRunning` flag, the console and graphical-output
region contents, and the current editor text. There is no readiness flag. -/
structure JsState where
  isRunning : Bool
  consoleText : String
  outputText : String
  currentCode : String
deriving DecidableEq

/-- Result of one `runCode` invocation: the state after the synchronous
parts and the awaited calls have settled, the trace of engine calls issued,
and whether the `finally` block armed the 1000 ms fallback timer. -/
structure RunResult (σ : Type) where
  state : σ
  calls : List ExtCall
  timerArmed : Bool
deriving DecidableEq

/-- The fixed classpath, src/JavaRunner.tsx line 159 / src/script.js
line 117. -/
def classPath : String := "/app/tools.jar:/files/"

/-- The compile invocation, src/JavaRunner.tsx lines 160-167 /
src/script.js lines 118-125. -/
def compileCall : ExtCall :=
  ExtCall.runMain "com.sun.tools.javac.Main" classPath
    ["/str/Main.java", "-d", "/files/", "-Xlint"]

/-- `runCode` from src/JavaRunner.tsx lines 146-186. `cheerpjReady` is set
only after the engine script has loaded (lines 60-65), so the CheerpJ
globals exist whenever the guard passes and `RunEnv.loaded` plays no role
here. -/
def tsxRunCode (env : RunEnv) (s : ReactState) : RunResult ReactState :=
  if !s.cheerpjReady || s.isRunning then ⟨s, [], false⟩
  else
    let s1 : ReactState :=
      { s with isRunning := true, consoleText := "", outputText := "" }
    let w : ExtCall := ExtCall.addStringFile "/str/Main.java" s.currentCode
    match env.fileWriteThrows with
    | some e =>
      ⟨{ s1 with consoleText := s1.consoleText ++ ("Error: " ++ (e ++ "\n")) },
       [w], true⟩
    | none =>
      match env.compileThrows with
      | some e =>
        ⟨{ s1 with consoleText := s1.consoleText ++ ("Error: " ++ (e ++ "\n")) },
         [w, compileCall], true⟩
      | none =>
        if env.compileResult = 0 then
          let launch : ExtCall :=
            ExtCall.runMain (JavaRunner.extractMainClass s.currentCode) classPath []
          match env.runThrows with
          | some e =>
            ⟨{ s1 with
               consoleText := s1.consoleText ++ ("Error: " ++ (e ++ "\n")) },
             [w, compileCall, launch], true⟩
          | none => ⟨s1, [w, compileCall, launch], true⟩
        else
          ⟨{ s1 with
             consoleText :=
               s1.consoleText ++ "Compilation failed. Check the console for details.\n" },
           [w, compileCall], true⟩

/-- `showError` from src/script.js lines 202-207. -/
def showError (consoleText msg : String) : String :=
  consoleText ++ ("Error: " ++ (msg ++ "\n"))

/-- `runCode` from src/script.js lines 104-147. The guard checks only
`isRunning`; when the CheerpJ globals do not exist (`loaded = false`), the
first engine touch `cheerpjAddStringFile(...)` raises a `ReferenceError`
inside the try block, which the catch reports via `showError` with the
`Runtime error: ` prefix of line 137. -/
def jsRunCode (env : RunEnv) (s : JsState) : RunResult JsState :=
  if s.isRunning then ⟨s, [], false⟩
  else
    let s1 : JsState :=
      { s with isRunning := true, consoleText := "", outputText := "" }
    if !env.loaded then
      ⟨{ s1 with
         consoleText :=
           showError s1.consoleText
             ("Runtime error: " ++ "cheerpjAddStringFile is not defined") },
       [], true⟩
    else
      let w : ExtCall := ExtCall.addStringFile "/str/Main.java" s.currentCode
      match env.fileWriteThrows with
      | some e =>
        ⟨{ s1 with consoleText := showError s1.consoleText ("Runtime error: " ++ e) },
         [w], true⟩
      | none =>
        match env.compileThrows with
        | some e =>
          ⟨{ s1 with consoleText := showError s1.consoleText ("Runtime error: " ++ e) },
           [w, compileCall], true⟩
        | none =>
          if env.compileResult = 0 then
            let launch : ExtCall :=
              ExtCall.runMain (SimpleJavaRunner.extractMainClass s.currentCode)
                classPath []
            match env.runThrows with
            | some e =>
              ⟨{ s1 with
                 consoleText := showError s1.consoleText ("Runtime error: " ++ e) },
               [w, compileCall, launch], true⟩
            | none => ⟨s1, [w, compileCall, launch], true⟩
          else
            ⟨{ s1 with
               consoleText :=
                 showError s1.consoleText
                   "Compilation failed. Check the console for details." },
             [w, compileCall], true⟩

/-- The fallback timer callback of src/JavaRunner.tsx line 184:
`setIsRunning(false)`, unconditionally. -/
def tsxTimeout (s : ReactState) : ReactState := { s with isRunning := false }

/-- The fallback timer callback of src/script.js lines 141-145:
`if (this.isRunning) this.setRunning(false)`. -/
def jsTimeout (s : JsState) : JsState :=
  if s.isRunning then { s with isRunning := false } else s

/-- A compile invocation in the trace: a `cheerpjRunMain` call on the javac
entry point with compiler arguments (the program launch passes no extra
arguments, so the two call shapes are disjoint). -/
def isCompileCall : ExtCall → Bool
  | ExtCall.runMain e _ (_ :: _) => e == "com.sun.tools.javac.Main"
  | _ => false

/-- A program-launch invocation in the trace: a `cheerpjRunMain` call with
no extra arguments (src/JavaRunner.tsx line 172 / src/script.js line 130). -/
def isLaunchCall : ExtCall → Bool
  | ExtCall.runMain _ _ [] => true
  | _ => false

/-- Substring containment, for "the console contains ..." properties. -/
def strContains (hay sub : String) : Prop := sub.data <:+: hay.data

instance (hay sub : String) : Decidable (strContains hay sub) :=
  List.decidableInfix sub.data hay.data

/-- An input that contains both `package com.example;` and
`public class Foo`, but whose first package declaration is a different,
earlier one. -/
def c4Input : String := "package a ;package com.example;public class Foo \x7b\x7d"

/-!
Sample environments and states for the closed witnesses.
-/

/-- A healthy environment: engine loaded, nothing throws, compile returns 0. -/
def env0 : RunEnv := ⟨true, none, none, 0, none⟩

/-- Engine loaded, compile returns a non-zero result. -/
def envCompileFail : RunEnv := ⟨true, none, none, 2, none⟩

/-- Engine loaded, the file-write step throws with message `boom`. -/
def envFileThrow : RunEnv := ⟨true, some "boom", none, 0, none⟩

/-- The CheerpJ globals were never loaded. -/
def envUnloaded : RunEnv := ⟨false, none, none, 0, none⟩

/-- A ready, idle React component with a small source. -/
def s0 : ReactState := ⟨true, false, "", "", "public class Foo \x7b\x7d"⟩

/-- A busy React component. -/
def sBusy : ReactState := ⟨true, true, "keep", "", "public class Foo \x7b\x7d"⟩

/-- An idle vanilla runner with a small source. -/
def t0 : JsState := ⟨false, "", "", "public class Foo \x7b\x7d"⟩

/-- A busy vanilla runner. -/
def tBusy : JsState := ⟨true, "keep", "", "public class Foo \x7b\x7d"⟩

/-- An idle vanilla runner with prior console text, used to show that a
run trigger with an unavailable engine is not a no-op. -/
def t9 : JsState := ⟨false, "old console", "", "class A \x7b\x7d"⟩

/-!
String-containment helper lemmas used by the console properties.
-/

lemma strContains_refl (s : String) : strContains s s := ⟨[], [], by simp⟩

lemma strContains_append_left (a : String) {t b : String} (h : strContains t b) :
    strContains (a ++ t) b := by
  obtain ⟨u, v, huv⟩ := h
  exact ⟨a.data ++ u, v, by rw [String.data_append, ← huv]; simp⟩

lemma strContains_append_right (c : String) {t b : String} (h : strContains t b) :
    strContains (t ++ c) b := by
  obtain ⟨u, v, huv⟩ := h
  exact ⟨u, v ++ c.data, by rw [String.data_append, ← huv]; simp⟩

/-!
Claims about the class-name resolver.
-/

/-- C10: the React and vanilla implementations of the class-name resolver
are extensionally equal: for every input string, `extractMainClass` of
src/JavaRunner.tsx and `extractMainClass` of src/script.js return the same
resolved name. -/
theorem C10_resolver_equivalence :
    ∀ code : String,
      JavaRunner.extractMainClass code = SimpleJavaRunner.extractMainClass code :=
  fun _ => rfl

/-- C4 counterexample: `c4Input` contains the substrings `package
com.example;` and `public class Foo`, yet the resolver returns `"a.Foo"`,
not `"com.example.Foo"` — the first package match wins. It also returns
the *trimmed* first capture (`"a "` is captured with its trailing space),
so the result is not literally the captured text, a dot and the
identifier either. -/
theorem C4_counterexample :
    strContains c4Input "package com.example;" ∧
    strContains c4Input "public class Foo" ∧
    scanMatch matchPackageAt c4Input.toList = some ("a ".toList) ∧
    scanMatch matchClassAt c4Input.toList = some ("Foo".toList) ∧
    JavaRunner.extractMainClass c4Input = "a.Foo" ∧
    JavaRunner.extractMainClass c4Input ≠ "com.example.Foo" ∧
    JavaRunner.extractMainClass c4Input ≠ "a " ++ "." ++ "Foo" := by
  refine ⟨?_, ?_, ?_, ?_, ?_, ?_, ?_⟩ <;> decide

/-- C4 (amended): whenever the *first* package match captures `p` and the
*first* public-class match captures `c`, both resolvers return the captured
package name with surrounding whitespace trimmed, a dot, and the captured
class identifier. In particular any input whose first package capture is
`com.example` and whose first class capture is `Foo` resolves to
`"com.example.Foo"`. -/
theorem C4_first_capture (code : String) (p c : List Char)
    (hp : scanMatch matchPackageAt code.toList = some p)
    (hc : scanMatch matchClassAt code.toList = some c) :
    JavaRunner.extractMainClass code = (jsTrim p).asString ++ "." ++ c.asString ∧
    SimpleJavaRunner.extractMainClass code = (jsTrim p).asString ++ "." ++ c.asString := by
  have hp' : scanMatch matchPackageAt code.data = some p := hp
  have hc' : scanMatch matchClassAt code.data = some c := hc
  constructor <;>
    simp [JavaRunner.extractMainClass, SimpleJavaRunner.extractMainClass, hp', hc']

/-- C4 witness: the amended claim applied to a concrete package + public
class source yields the dotted name. -/
theorem C4_witness :
    JavaRunner.extractMainClass "package com.example;\npublic class Foo \x7b\x7d" =
      "com.example.Foo" := by
  have h := C4_first_capture "package com.example;\npublic class Foo \x7b\x7d"
      ("com.example".toList) ("Foo".toList) (by decide) (by decide)
  rw [h.1]; decide

/-- C5: for every input with no public-class match, both resolvers return
the fixed fallback `"Main"` — in particular the package prefix is never
attached to the fallback, since the package branch is only reached after a
successful class match. -/
theorem C5_no_class_fallback (code : String)
    (hc : scanMatch matchClassAt code.toList = none) :
    JavaRunner.extractMainClass code = "Main" ∧
    SimpleJavaRunner.extractMainClass code = "Main" := by
  have hc' : scanMatch matchClassAt code.data = none := hc
  constructor <;>
    simp [JavaRunner.extractMainClass, SimpleJavaRunner.extractMainClass, hc']

/-- C5 witness: an input with a package declaration but no `public class`
resolves to plain `"Main"`, with no package prefix attached. -/
theorem C5_witness :
    JavaRunner.extractMainClass "package com.example;\nclass Foo \x7b\x7d" = "Main" := by
  have h := C5_no_class_fallback "package com.example;\nclass Foo \x7b\x7d" (by decide)
  exact h.1

/-- C6: the resolver honors only the first match. `scanMatch` (the
embedding of JavaScript leftmost matching) returns the capture of the
earliest matching position whenever all earlier positions fail; and an
input with two `public class` declarations resolves using the first
occurrence only. -/
theorem C6_first_match_only :
    (∀ (f : List Char → Option (List Char)), f [] = none →
      ∀ (code : List Char) (i : Nat) (cap : List Char),
        f (code.drop i) = some cap →
        (∀ j, j < i → f (code.drop j) = none) →
        scanMatch f code = some cap) ∧
    matchClassAt [] = none ∧ matchPackageAt [] = none ∧
    JavaRunner.extractMainClass "public class First \x7b\x7d public class Second \x7b\x7d" =
      "First" := by
  refine ⟨?_, by decide, by decide, by decide⟩
  intro f hnil code
  induction code with
  | nil =>
    intro i cap h _
    rw [List.drop_nil] at h
    rw [hnil] at h
    exact absurd h (by simp)
  | cons a rest ih =>
    intro i cap h hlt
    cases i with
    | zero =>
      simp only [List.drop_zero] at h
      simp [scanMatch, h]
    | succ k =>
      have h0 : f (a :: rest) = none := by
        have := hlt 0 (Nat.succ_pos k)
        simpa using this
      have hrest : f (rest.drop k) = some cap := by
        simpa [List.drop_succ_cons] using h
      have hlt2 : ∀ j, j < k → f (rest.drop j) = none := by
        intro j hj
        have := hlt (j + 1) (Nat.succ_lt_succ hj)
        simpa [List.drop_succ_cons] using this
      simp only [scanMatch, h0]
      exact ih k cap hrest hlt2

/-- C6 witness: the leftmost-match property applied at a concrete input
whose first class match sits at position 3. -/
theorem C6_witness :
    scanMatch matchClassAt ("xx public class Abc".toList) = some ("Abc".toList) := by
  apply C6_first_match_only.1 matchClassAt (by decide) _ 3 _ (by decide)
  intro j hj
  interval_cases j <;> decide

/-!
Helper lemmas about the orchestrators.
-/

lemma tsx_busy (env : RunEnv) (u : ReactState) (h : u.isRunning = true) :
    tsxRunCode env u = ⟨u, [], false⟩ := by
  simp [tsxRunCode, h]

lemma tsx_notReady (env : RunEnv) (u : ReactState) (h : u.cheerpjReady = false) :
    tsxRunCode env u = ⟨u, [], false⟩ := by
  simp [tsxRunCode, h]

lemma js_busy (env : RunEnv) (v : JsState) (h : v.isRunning = true) :
    jsRunCode env v = ⟨v, [], false⟩ := by
  simp [jsRunCode, h]

lemma tsx_started (env : RunEnv) (s : ReactState)
    (hr : s.cheerpjReady = true) (hs : s.isRunning = false) :
    (tsxRunCode env s).state.isRunning = true ∧ (tsxRunCode env s).timerArmed = true := by
  rcases hfw : env.fileWriteThrows with _ | e <;>
    rcases hct : env.compileThrows with _ | e2 <;>
    rcases hrt : env.runThrows with _ | e3 <;>
    by_cases hcr : env.compileResult = 0 <;>
    simp [tsxRunCode, hr, hs, hfw, hct, hrt, hcr]

lemma js_started (env : RunEnv) (t : JsState) (ht : t.isRunning = false) :
    (jsRunCode env t).state.isRunning = true ∧ (jsRunCode env t).timerArmed = true := by
  by_cases hld : env.loaded <;>
    rcases hfw : env.fileWriteThrows with _ | e <;>
    rcases hct : env.compileThrows with _ | e2 <;>
    rcases hrt : env.runThrows with _ | e3 <;>
    by_cases hcr : env.compileResult = 0 <;>
    simp [jsRunCode, ht, hld, hfw, hct, hrt, hcr]

lemma isCompileCall_write (p c : String) :
    isCompileCall (ExtCall.addStringFile p c) = false := rfl

lemma isCompileCall_compileCall : isCompileCall compileCall = true := by decide

lemma isCompileCall_launch (m cp : String) :
    isCompileCall (ExtCall.runMain m cp []) = false := rfl

lemma isLaunchCall_write (p c : String) :
    isLaunchCall (ExtCall.addStringFile p c) = false := rfl

lemma isLaunchCall_compileCall : isLaunchCall compileCall = false := by decide

lemma isLaunchCall_launch (m cp : String) :
    isLaunchCall (ExtCall.runMain m cp []) = true := rfl

lemma tsx_counts (env : RunEnv) (s : ReactState)
    (hr : s.cheerpjReady = true) (hs : s.isRunning = false)
    (hfw : env.fileWriteThrows = none) :
    (tsxRunCode env s).calls.countP isCompileCall = 1 ∧
    (tsxRunCode env s).calls.countP isLaunchCall ≤ 1 := by
  rcases hct : env.compileThrows with _ | e2 <;>
    rcases hrt : env.runThrows with _ | e3 <;>
    by_cases hcr : env.compileResult = 0 <;>
    simp [tsxRunCode, hr, hs, hfw, hct, hrt, hcr, List.countP_cons, List.countP_nil,
      isCompileCall_write, isCompileCall_compileCall, isCompileCall_launch,
      isLaunchCall_write, isLaunchCall_compileCall, isLaunchCall_launch]

lemma js_counts (env : RunEnv) (t : JsState) (ht : t.isRunning = false)
    (hld : env.loaded = true) (hfw : env.fileWriteThrows = none) :
    (jsRunCode env t).calls.countP isCompileCall = 1 ∧
    (jsRunCode env t).calls.countP isLaunchCall ≤ 1 := by
  rcases hct : env.compileThrows with _ | e2 <;>
    rcases hrt : env.runThrows with _ | e3 <;>
    by_cases hcr : env.compileResult = 0 <;>
    simp [jsRunCode, ht, hld, hfw, hct, hrt, hcr, List.countP_cons, List.countP_nil,
      isCompileCall_write, isCompileCall_compileCall, isCompileCall_launch,
      isLaunchCall_write, isLaunchCall_compileCall, isLaunchCall_launch]

lemma strContains_error_line (pre e post : String) :
    strContains (pre ++ ("Error: " ++ (e ++ post))) e :=
  strContains_append_left pre (strContains_append_left "Error: "
    (strContains_append_right post (strContains_refl e)))

lemma strContains_runtime_error_line (pre e : String) :
    strContains (showError pre ("Runtime error: " ++ e)) e :=
  strContains_append_left pre (strContains_append_left "Error: "
    (strContains_append_right "\n"
      (strContains_append_left "Runtime error: " (strContains_refl e))))

/-!
Claims about the run orchestrator.
-/

/-- C1: while `RunState` is busy, triggering run starts no new cycle, in
both implementations; triggering run twice in rapid succession (the second
trigger landing while the first cycle is still busy) issues exactly one
compile call and at most one launch call in the combined trace; and the
busy state lasts at most one run cycle: once the fallback timer armed by
the cycle fires, the state is idle again. -/
theorem C1_busy_mutual_exclusion (e1 e2 : RunEnv) (s : ReactState) (t : JsState)
    (hr : s.cheerpjReady = true) (hs : s.isRunning = false)
    (ht : t.isRunning = false)
    (hld : e1.loaded = true) (hfw : e1.fileWriteThrows = none) :
    (∀ (env : RunEnv) (u : ReactState), u.isRunning = true →
      tsxRunCode env u = ⟨u, [], false⟩) ∧
    (∀ (env : RunEnv) (v : JsState), v.isRunning = true →
      jsRunCode env v = ⟨v, [], false⟩) ∧
    tsxRunCode e2 (tsxRunCode e1 s).state = ⟨(tsxRunCode e1 s).state, [], false⟩ ∧
    ((tsxRunCode e1 s).calls ++
      (tsxRunCode e2 (tsxRunCode e1 s).state).calls).countP isCompileCall = 1 ∧
    ((tsxRunCode e1 s).calls ++
      (tsxRunCode e2 (tsxRunCode e1 s).state).calls).countP isLaunchCall ≤ 1 ∧
    (tsxTimeout (tsxRunCode e1 s).state).isRunning = false ∧
    jsRunCode e2 (jsRunCode e1 t).state = ⟨(jsRunCode e1 t).state, [], false⟩ ∧
    ((jsRunCode e1 t).calls ++
      (jsRunCode e2 (jsRunCode e1 t).state).calls).countP isCompileCall = 1 ∧
    ((jsRunCode e1 t).calls ++
      (jsRunCode e2 (jsRunCode e1 t).state).calls).countP isLaunchCall ≤ 1 ∧
    (jsTimeout (jsRunCode e1 t).state).isRunning = false := by
  have hbusyT := tsx_busy e2 (tsxRunCode e1 s).state (tsx_started e1 s hr hs).1
  have hbusyJ := js_busy e2 (jsRunCode e1 t).state (js_started e1 t ht).1
  have hcT := tsx_counts e1 s hr hs hfw
  have hcJ := js_counts e1 t ht hld hfw
  refine ⟨tsx_busy, js_busy, hbusyT, ?_, ?_, ?_, hbusyJ, ?_, ?_, ?_⟩
  · rw [hbusyT]; simpa using hcT.1
  · rw [hbusyT]; simpa using hcT.2
  · simp [tsxTimeout]
  · rw [hbusyJ]; simpa using hcJ.1
  · rw [hbusyJ]; simpa using hcJ.2
  · simp [jsTimeout, (js_started e1 t ht).1]

/-- C1 witness: the busy-gate and single-cycle property at a concrete
healthy environment and idle states. -/
theorem C1_witness :
    tsxRunCode env0 (tsxRunCode env0 s0).state = ⟨(tsxRunCode env0 s0).state, [], false⟩ ∧
    ((tsxRunCode env0 s0).calls ++
      (tsxRunCode env0 (tsxRunCode env0 s0).state).calls).countP isCompileCall = 1 := by
  have h := C1_busy_mutual_exclusion env0 env0 s0 t0 rfl rfl rfl rfl rfl
  exact ⟨h.2.2.1, h.2.2.2.1⟩

/-- C2: when the compile step returns a non-zero result, neither
implementation makes the program-launch call, and both consoles contain
the fixed compilation-failure message afterwards. -/
theorem C2_compile_failure (env : RunEnv) (s : ReactState) (t : JsState)
    (hr : s.cheerpjReady = true) (hs : s.isRunning = false)
    (ht : t.isRunning = false) (hld : env.loaded = true)
    (hfw : env.fileWriteThrows = none) (hct : env.compileThrows = none)
    (hcr : env.compileResult ≠ 0) :
    (tsxRunCode env s).calls.countP isLaunchCall = 0 ∧
    strContains (tsxRunCode env s).state.consoleText
      "Compilation failed. Check the console for details." ∧
    (jsRunCode env t).calls.countP isLaunchCall = 0 ∧
    strContains (jsRunCode env t).state.consoleText
      "Compilation failed. Check the console for details." := by
  have hT : tsxRunCode env s =
      ⟨{ s with
          isRunning := true
          consoleText := "" ++ "Compilation failed. Check the console for details.\n"
          outputText := "" },
       [ExtCall.addStringFile "/str/Main.java" s.currentCode, compileCall], true⟩ := by
    simp [tsxRunCode, hr, hs, hfw, hct, hcr]
  have hJ : jsRunCode env t =
      ⟨{ t with
          isRunning := true
          consoleText :=
            showError "" "Compilation failed. Check the console for details."
          outputText := "" },
       [ExtCall.addStringFile "/str/Main.java" t.currentCode, compileCall], true⟩ := by
    simp [jsRunCode, ht, hld, hfw, hct, hcr]
  refine ⟨?_, ?_, ?_, ?_⟩
  · rw [hT]
    simp [List.countP_cons, List.countP_nil, isLaunchCall_write, isLaunchCall_compileCall]
  · rw [hT]
    show strContains ("" ++ "Compilation failed. Check the console for details.\n")
      "Compilation failed. Check the console for details."
    decide
  · rw [hJ]
    simp [List.countP_cons, List.countP_nil, isLaunchCall_write, isLaunchCall_compileCall]
  · rw [hJ]
    show strContains (showError "" "Compilation failed. Check the console for details.")
      "Compilation failed. Check the console for details."
    decide

/-- C2 witness: the compile-failure behavior at a concrete environment
whose compile result is 2. -/
theorem C2_witness :
    (tsxRunCode envCompileFail s0).calls.countP isLaunchCall = 0 ∧
    strContains (tsxRunCode envCompileFail s0).state.consoleText
      "Compilation failed. Check the console for details." := by
  have h := C2_compile_failure envCompileFail s0 t0 rfl rfl rfl rfl rfl rfl (by decide)
  exact ⟨h.1, h.2.1⟩

/-- C3: when the compile step returns 0, both implementations issue the
program-launch call exactly once, with the name obtained by applying the
class-name resolver to the current source and with the same fixed classpath
as the compile call; for the default "Hello, World!" sample the resolver
yields `"Main"`. -/
theorem C3_success_launch (env : RunEnv) (s : ReactState) (t : JsState)
    (hr : s.cheerpjReady = true) (hs : s.isRunning = false)
    (ht : t.isRunning = false) (hld : env.loaded = true)
    (hfw : env.fileWriteThrows = none) (hct : env.compileThrows = none)
    (hcr : env.compileResult = 0) :
    (tsxRunCode env s).calls =
      [ExtCall.addStringFile "/str/Main.java" s.currentCode, compileCall,
       ExtCall.runMain (JavaRunner.extractMainClass s.currentCode) classPath []] ∧
    (tsxRunCode env s).calls.countP isLaunchCall = 1 ∧
    (jsRunCode env t).calls =
      [ExtCall.addStringFile "/str/Main.java" t.currentCode, compileCall,
       ExtCall.runMain (SimpleJavaRunner.extractMainClass t.currentCode) classPath []] ∧
    (jsRunCode env t).calls.countP isLaunchCall = 1 ∧
    JavaRunner.extractMainClass DEFAULT_JAVA_CODE = "Main" ∧
    classPath = "/app/tools.jar:/files/" := by
  have hTr : (tsxRunCode env s).calls =
      [ExtCall.addStringFile "/str/Main.java" s.currentCode, compileCall,
       ExtCall.runMain (JavaRunner.extractMainClass s.currentCode) classPath []] := by
    rcases hrt : env.runThrows with _ | e <;>
      simp [tsxRunCode, hr, hs, hfw, hct, hcr, hrt]
  have hJr : (jsRunCode env t).calls =
      [ExtCall.addStringFile "/str/Main.java" t.currentCode, compileCall,
       ExtCall.runMain (SimpleJavaRunner.extractMainClass t.currentCode) classPath []] := by
    rcases hrt : env.runThrows with _ | e <;>
      simp [jsRunCode, ht, hld, hfw, hct, hcr, hrt]
  refine ⟨hTr, ?_, hJr, ?_, by decide, rfl⟩
  · rw [hTr]
    simp [List.countP_cons, List.countP_nil, isLaunchCall_write,
      isLaunchCall_compileCall, isLaunchCall_launch]
  · rw [hJr]
    simp [List.countP_cons, List.countP_nil, isLaunchCall_write,
      isLaunchCall_compileCall, isLaunchCall_launch]

/-- C3 witness: the successful-compile launch at a concrete environment and
state; the resolver applied to `public class Foo \x7b\x7d` yields `"Foo"`. -/
theorem C3_witness :
    (tsxRunCode env0 s0).calls =
      [ExtCall.addStringFile "/str/Main.java" s0.currentCode, compileCall,
       ExtCall.runMain "Foo" classPath []] ∧
    JavaRunner.extractMainClass DEFAULT_JAVA_CODE = "Main" := by
  have h := C3_success_launch env0 s0 t0 rfl rfl rfl rfl rfl rfl rfl
  refine ⟨?_, h.2.2.2.2.1⟩
  rw [h.1]
  decide

/-- C7: when a step of the run cycle throws (file write, compile invoke, or
run invoke), both orchestrators catch the error, the console afterwards
contains the error's text, no launch call is issued after the throw (for
the two earlier throw points no launch is issued at all; for a throwing
launch the trace ends at that launch), and once the armed fallback timer
fires, `RunState` is idle again. -/
theorem C7_thrown_error (env : RunEnv) (e : String) (s : ReactState) (t : JsState)
    (hr : s.cheerpjReady = true) (hs : s.isRunning = false)
    (ht : t.isRunning = false) (hld : env.loaded = true) :
    (env.fileWriteThrows = some e →
      (tsxRunCode env s).calls.countP isLaunchCall = 0 ∧
      strContains (tsxRunCode env s).state.consoleText e ∧
      (tsxRunCode env s).timerArmed = true ∧
      (tsxTimeout (tsxRunCode env s).state).isRunning = false ∧
      (jsRunCode env t).calls.countP isLaunchCall = 0 ∧
      strContains (jsRunCode env t).state.consoleText e ∧
      (jsRunCode env t).timerArmed = true ∧
      (jsTimeout (jsRunCode env t).state).isRunning = false) ∧
    (env.fileWriteThrows = none → env.compileThrows = some e →
      (tsxRunCode env s).calls.countP isLaunchCall = 0 ∧
      strContains (tsxRunCode env s).state.consoleText e ∧
      (tsxRunCode env s).timerArmed = true ∧
      (tsxTimeout (tsxRunCode env s).state).isRunning = false ∧
      (jsRunCode env t).calls.countP isLaunchCall = 0 ∧
      strContains (jsRunCode env t).state.consoleText e ∧
      (jsRunCode env t).timerArmed = true ∧
      (jsTimeout (jsRunCode env t).state).isRunning = false) ∧
    (env.fileWriteThrows = none → env.compileThrows = none →
     env.compileResult = 0 → env.runThrows = some e →
      (tsxRunCode env s).calls =
        [ExtCall.addStringFile "/str/Main.java" s.currentCode, compileCall,
         ExtCall.runMain (JavaRunner.extractMainClass s.currentCode) classPath []] ∧
      strContains (tsxRunCode env s).state.consoleText e ∧
      (tsxTimeout (tsxRunCode env s).state).isRunning = false ∧
      (jsRunCode env t).calls =
        [ExtCall.addStringFile "/str/Main.java" t.currentCode, compileCall,
         ExtCall.runMain (SimpleJavaRunner.extractMainClass t.currentCode) classPath []] ∧
      strContains (jsRunCode env t).state.consoleText e ∧
      (jsTimeout (jsRunCode env t).state).isRunning = false) := by
  refine ⟨?_, ?_, ?_⟩
  · intro hfw
    have hT : tsxRunCode env s =
        ⟨{ s with
            isRunning := true
            consoleText := "" ++ ("Error: " ++ (e ++ "\n"))
            outputText := "" },
         [ExtCall.addStringFile "/str/Main.java" s.currentCode], true⟩ := by
      simp [tsxRunCode, hr, hs, hfw]
    have hJ : jsRunCode env t =
        ⟨{ t with
            isRunning := true
            consoleText := showError "" ("Runtime error: " ++ e)
            outputText := "" },
         [ExtCall.addStringFile "/str/Main.java" t.currentCode], true⟩ := by
      simp [jsRunCode, ht, hld, hfw]
    refine ⟨?_, ?_, ?_, ?_, ?_, ?_, ?_, ?_⟩
    · rw [hT]; simp [List.countP_cons, List.countP_nil, isLaunchCall_write]
    · rw [hT]; exact strContains_error_line "" e "\n"
    · rw [hT]
    · rw [hT]; simp [tsxTimeout]
    · rw [hJ]; simp [List.countP_cons, List.countP_nil, isLaunchCall_write]
    · rw [hJ]; exact strContains_runtime_error_line "" e
    · rw [hJ]
    · rw [hJ]; simp [jsTimeout]
  · intro hfw hct
    have hT : tsxRunCode env s =
        ⟨{ s with
            isRunning := true
            consoleText := "" ++ ("Error: " ++ (e ++ "\n"))
            outputText := "" },
         [ExtCall.addStringFile "/str/Main.java" s.currentCode, compileCall], true⟩ := by
      simp [tsxRunCode, hr, hs, hfw, hct]
    have hJ : jsRunCode env t =
        ⟨{ t with
            isRunning := true
            consoleText := showError "" ("Runtime error: " ++ e)
            outputText := "" },
         [ExtCall.addStringFile "/str/Main.java" t.currentCode, compileCall], true⟩ := by
      simp [jsRunCode, ht, hld, hfw, hct]
    refine ⟨?_, ?_, ?_, ?_, ?_, ?_, ?_, ?_⟩
    · rw [hT]
      simp [List.countP_cons, List.countP_nil, isLaunchCall_write, isLaunchCall_compileCall]
    · rw [hT]; exact strContains_error_line "" e "\n"
    · rw [hT]
    · rw [hT]; simp [tsxTimeout]
    · rw [hJ]
      simp [List.countP_cons, List.countP_nil, isLaunchCall_write, isLaunchCall_compileCall]
    · rw [hJ]; exact strContains_runtime_error_line "" e
    · rw [hJ]
    · rw [hJ]; simp [jsTimeout]
  · intro hfw hct hcr hrt
    have hT : tsxRunCode env s =
        ⟨{ s with
            isRunning := true
            consoleText := "" ++ ("Error: " ++ (e ++ "\n"))
            outputText := "" },
         [ExtCall.addStringFile "/str/Main.java" s.currentCode, compileCall,
          ExtCall.runMain (JavaRunner.extractMainClass s.currentCode) classPath []],
         true⟩ := by
      simp [tsxRunCode, hr, hs, hfw, hct, hcr, hrt]
    have hJ : jsRunCode env t =
        ⟨{ t with
            isRunning := true
            consoleText := showError "" ("Runtime error: " ++ e)
            outputText := "" },
         [ExtCall.addStringFile "/str/Main.java" t.currentCode, compileCall,
          ExtCall.runMain (SimpleJavaRunner.extractMainClass t.currentCode) classPath []],
         true⟩ := by
      simp [jsRunCode, ht, hld, hfw, hct, hcr, hrt]
    refine ⟨?_, ?_, ?_, ?_, ?_, ?_⟩
    · rw [hT]
    · rw [hT]; exact strContains_error_line "" e "\n"
    · rw [hT]; simp [tsxTimeout]
    · rw [hJ]
    · rw [hJ]; exact strContains_runtime_error_line "" e
    · rw [hJ]; simp [jsTimeout]

/-- C7 witness: the file-write throw with message `boom` at a concrete
environment: the console contains `boom` and the timer restores idle. -/
theorem C7_witness :
    strContains (tsxRunCode envFileThrow s0).state.consoleText "boom" ∧
    (tsxTimeout (tsxRunCode envFileThrow s0).state).isRunning = false ∧
    strContains (jsRunCode envFileThrow t0).state.consoleText "boom" := by
  have h := C7_thrown_error envFileThrow "boom" s0 t0 rfl rfl rfl rfl
  exact ⟨(h.1 rfl).2.1, (h.1 rfl).2.2.2.1, (h.1 rfl).2.2.2.2.2.1⟩

/-- C8: every run cycle (any environment: success, compile failure, thrown
error, even an absent engine for the vanilla version) arms the fallback
timer, and once the timer callback fires, `RunState` is idle; indeed the
React timer callback forces idle from any state whatsoever, and the vanilla
callback leaves any state idle. -/
theorem C8_timer_forces_idle (env : RunEnv) (s : ReactState) (t : JsState)
    (hr : s.cheerpjReady = true) (hs : s.isRunning = false)
    (ht : t.isRunning = false) :
    (tsxRunCode env s).timerArmed = true ∧
    (tsxTimeout (tsxRunCode env s).state).isRunning = false ∧
    (jsRunCode env t).timerArmed = true ∧
    (jsTimeout (jsRunCode env t).state).isRunning = false ∧
    (∀ u : ReactState, (tsxTimeout u).isRunning = false) ∧
    (∀ v : JsState, (jsTimeout v).isRunning = false) := by
  refine ⟨(tsx_started env s hr hs).2, by simp [tsxTimeout],
    (js_started env t ht).2, ?_, fun u => by simp [tsxTimeout], fun v => ?_⟩
  · simp [jsTimeout, (js_started env t ht).1]
  · by_cases h : v.isRunning <;> simp [jsTimeout, h]

/-- C8 witness: timer behavior at a concrete environment in which the
engine never loaded, so no completion signal could ever be observed. -/
theorem C8_witness :
    (jsRunCode envUnloaded t0).timerArmed = true ∧
    (jsTimeout (jsRunCode envUnloaded t0).state).isRunning = false := by
  have h := C8_timer_forces_idle envUnloaded s0 t0 rfl rfl rfl
  exact ⟨h.2.2.1, h.2.2.2.1⟩

/-- C9 (amended): in the React implementation, triggering run while busy or
while the runtime has not signaled readiness is an immediate no-op (no
console or output clearing, no engine call, no state change, no timer). In
the vanilla implementation only the busy check applies: a busy trigger is
the same no-op, but there is no readiness flag to gate on. -/
theorem C9_noop_guard :
    (∀ (env : RunEnv) (u : ReactState),
      u.isRunning = true ∨ u.cheerpjReady = false →
      tsxRunCode env u = ⟨u, [], false⟩) ∧
    (∀ (env : RunEnv) (v : JsState), v.isRunning = true →
      jsRunCode env v = ⟨v, [], false⟩) := by
  constructor
  · intro env u h
    rcases h with h | h
    · exact tsx_busy env u h
    · exact tsx_notReady env u h
  · exact js_busy

/-- C9 witness: the no-op guard at concrete busy states. -/
theorem C9_witness :
    tsxRunCode env0 sBusy = ⟨sBusy, [], false⟩ ∧
    jsRunCode env0 tBusy = ⟨tBusy, [], false⟩ :=
  ⟨C9_noop_guard.1 env0 sBusy (Or.inl rfl), C9_noop_guard.2 env0 tBusy rfl⟩

/-- C9 counterexample: in the vanilla implementation the claim fails for
the not-ready half. With the engine unavailable (`loaded = false`, i.e. the
CheerpJ globals never appeared) and the runner idle, triggering run is not
a no-op: the console is cleared and overwritten with an error line, the
busy flag is set, and the fallback timer is armed — the state changes. -/
theorem C9_counterexample :
    envUnloaded.loaded = false ∧ t9.isRunning = false ∧
    (jsRunCode envUnloaded t9).state.isRunning = true ∧
    (jsRunCode envUnloaded t9).state.consoleText ≠ t9.consoleText ∧
    (jsRunCode envUnloaded t9).state ≠ t9 ∧
    (jsRunCode envUnloaded t9).timerArmed = true := by
  refine ⟨rfl, rfl, ?_, ?_, ?_, ?_⟩ <;> decide
